import Mathlib

/-!
# Verification of the SeerLink/libocr report-generation follower and managed supervisor

This file shallowly embeds the Go source of the off-chain reporting library:
the report-generation follower state machine (`report_generation_follower`,
given as `src/unnamed/part_002`), the managed-oracle supervisor
(`src/unnamed/part_001`), and the `BootstrapNode` wrapper
(`src/unnamed/part_000`).

Pure functions are translated to Lean functions; handlers that mutate
`repgen.followerState` and emit events on channels become functions
`State → Message → State × List Event`.  External collaborators (crypto
signature verification, the data source, the contract transmitter, the
database) are fields of the state holding their results or their
verification functions, so each handler stays a pure function of its
inputs.  Machine integers (uint8 rounds, uint32 epochs) are modelled as
`Nat`: every comparison the Go code performs on them is either an equality
or is taken after a widening cast to `int64` (see the `RMax+1` guard), so
no wrap-around is observable.
-/

namespace Libocr

/-- The `ReportContext` from the protocol package: `(ConfigDigest, epoch, round)`,
the domain-separating prefix of every signature. -/
structure ReportContext where
  configDigest : Nat
  epoch : Nat
  round : Nat
deriving DecidableEq, Repr

/-- The `types.OracleIdentity`: the per-oracle key material the config carries. -/
structure OracleIdentity where
  peerID : Nat
  onChainSigningAddress : Nat
  offchainPublicKey : Nat
  transmitAddress : Nat
deriving DecidableEq, Repr

instance : Inhabited OracleIdentity := ⟨⟨0, 0, 0, 0⟩⟩

/-- The part of `config.SharedConfig` the follower and supervisor read:
digest, committee, fault bound `F`, round cap `RMax`, deviation threshold
`AlphaPPB` and the heartbeat interval `DeltaC` (nanoseconds). -/
structure SharedConfig where
  configDigest : Nat
  oracleIdentities : List OracleIdentity
  f : Nat
  rMax : Nat
  alphaPPB : Nat
  deltaC : Int
deriving DecidableEq, Repr

instance : Inhabited SharedConfig := ⟨⟨0, [], 0, 0, 0, 0⟩⟩

/-- The `config.N()`: the committee size. -/
def SharedConfig.numOracles (c : SharedConfig) : Nat :=
  c.oracleIdentities.length

/-- The `SignedObservation`: an observation value plus an off-chain signature.
The observation value is the `Int` carried by `observation.Observation`. -/
structure SignedObservation where
  observation : Int
  signature : Nat
deriving DecidableEq, Repr

/-- The `AttributedSignedObservation`: a signed observation plus the claimed
`Observer` oracle id. -/
structure AttributedSignedObservation where
  signedObservation : SignedObservation
  observer : Nat
deriving DecidableEq, Repr

instance : Inhabited AttributedSignedObservation :=
  ⟨⟨⟨0, 0⟩, 0⟩⟩

/-- The `AttestedReportMany`: attributed observations plus on-chain signatures. -/
structure AttestedReportMany where
  attributedObservations : List (Int × Nat)
  signatures : List Nat
deriving DecidableEq, Repr

instance : Inhabited AttestedReportMany := ⟨⟨[], []⟩⟩

/-- The `MessageObserveReq{Epoch, Round}`. -/
structure MessageObserveReq where
  epoch : Nat
  round : Nat
deriving DecidableEq, Repr

/-- The `MessageReportReq{Epoch, Round, AttributedSignedObservations}`. -/
structure MessageReportReq where
  epoch : Nat
  round : Nat
  attributedSignedObservations : List AttributedSignedObservation
deriving DecidableEq, Repr

/-- The `MessageFinal{Epoch, Round, Report}`. -/
structure MessageFinal where
  epoch : Nat
  round : Nat
  report : AttestedReportMany
deriving DecidableEq, Repr

/-- The `MessageFinalEcho` wraps a `MessageFinal`. -/
structure MessageFinalEcho where
  epoch : Nat
  round : Nat
  report : AttestedReportMany
deriving DecidableEq, Repr

/-- Outbound messages the follower sends over the network endpoint. -/
inductive Message where
  | observe (epoch round : Nat) (so : SignedObservation)
  | report (epoch round : Nat) (rep : AttestedReportMany)
  | finalEcho (m : MessageFinalEcho)
deriving DecidableEq, Repr

/-- Observable effects of one handler invocation: events on the pacemaker
channel (`changeLeader`, `progress`), the transmission channel (`transmit`),
the network (`sendTo`, `broadcast`) and telemetry (`roundStarted`). -/
inductive Event where
  | changeLeader
  | progress
  | transmit (epoch round : Nat) (report : AttestedReportMany)
  | sendTo (msg : Message) (receiver : Nat)
  | broadcast (msg : Message)
  | roundStarted
deriving DecidableEq, Repr

/-- The `protocol.followerState`: round number, optional echoed report, the
sent-report and completed-round flags, and the received-echo bit set. -/
structure FollowerState where
  r : Nat
  sentEcho : Option AttestedReportMany
  sentReport : Bool
  completedRound : Bool
  receivedEcho : List Bool
deriving DecidableEq, Repr

/-- The follower's view of `reportGenerationState`, with every external
collaborator represented by the result it returns (data source, contract
transmitter) or by its verification/signing function (crypto). -/
structure RGState where
  config : SharedConfig
  e : Nat
  l : Nat
  id : Nat
  followerState : FollowerState
  /-- The `SignedObservation.Verify(ctx, publicKey)`, external crypto. -/
  verifySO : SignedObservation → ReportContext → Nat → Bool
  /-- The `AttestedReportMany.VerifySignatures(ctx, keys)`, external crypto;
  the keys argument is the address → oracle-id map built in
  `verifyAttestedReport`. -/
  verifySignatures : ReportContext → List (Nat × Nat) → AttestedReportMany → Bool
  /-- The `MakeSignedObservation(value, ctx, SignOffChain)`, external crypto. -/
  makeSignedObservation : Int → ReportContext → Except String SignedObservation
  /-- The `MakeAttestedReportOne(values, ctx, SignOnChain)`, external crypto. -/
  makeAttestedReportOne : List (Int × Nat) → ReportContext → Except String AttestedReportMany
  /-- The `AttestedReportOne.Verify(ctx, PublicKeyAddressOnChain())`: the
  self-check of the follower's own report signature. -/
  verifyOwnReport : AttestedReportMany → ReportContext → Bool
  /-- The `privateKeys.PublicKeyOffChain()`. -/
  publicKeyOffChain : Nat
  /-- Result of `observeValue()`: `none` when the data source timed out,
  errored, or returned the missing-value sentinel. -/
  observedValue : Option Int
  /-- Result of `contractTransmitter.LatestTransmissionDetails(ctx)`:
  `(configDigest, epoch, round, latestAnswer, latestTimestamp)` with the
  timestamp in nanoseconds. -/
  latestTransmissionDetails : Except String (Nat × Nat × Nat × Int × Int)
  /-- The `time.Now()` in nanoseconds, read inside `shouldReport`. -/
  now : Int

/-- The `repgen.followerReportContext()`. -/
def followerReportContext (st : RGState) : ReportContext :=
  ⟨st.config.configDigest, st.e, st.followerState.r⟩

/-!
## Observation arithmetic

The `observation` package is not among the given source files; these two
definitions are modelled from the spec (§4.2).
-/

/-- Modelled from the spec: `MakeObservation` "clamps/ranges into the
fixed-width domain, failing with `OutOfRange` for values exceeding the
canonical bound"; the domain is the ≤192-bit two's-complement range. -/
def MakeObservation (v : Int) : Except String Int :=
  if v < -(2 ^ 191) ∨ 2 ^ 191 - 1 < v then .error "OutOfRange" else .ok v

/-- Modelled from the spec: `Observation.Deviates(other, alphaPPB)` "returns
true iff `|self - other| * 10^9 > alphaPPB * max(|other|, 1)`". -/
def Deviates (self other : Int) (alphaPPB : Nat) : Bool :=
  decide (alphaPPB * max other.natAbs 1 < (self - other).natAbs * 1000000000)

/-- Modelled from the spec: `Observation.Less` "gives strict total order used
for sorting"; on the underlying integers it is `<`. -/
def obsLess (a b : Int) : Bool :=
  decide (a < b)

/-!
## The follower handlers
-/

/-- The `sort.SliceIsSorted(data, less)`: checks `¬ less (data[i]) (data[i-1])`
for every `i` in `[1, n)`. -/
def sliceIsSorted {α : Type} (less : α → α → Bool) : List α → Bool
  | [] => true
  | [_] => true
  | a :: b :: rest => !less b a && sliceIsSorted less (b :: rest)

/-- The signature/bounds/distinctness loop of `verifyReportReq`: walks the
attributed signed observations carrying the set of already-`counted`
observers, returning the final set.  `counted` is the key set of the Go
`map[types.OracleID]bool`.  (The Go loop also checks `int(obs.Observer) < 0`,
which cannot fire for a `Nat` observer.) -/
def checkObservations (st : RGState) :
    List AttributedSignedObservation → List Nat → Except String (List Nat)
  | [], counted => .ok counted
  | obs :: rest, counted =>
    if st.config.numOracles ≤ obs.observer then
      .error "oracle ID out of bounds"
    else if obs.observer ∈ counted then
      .error "duplicate observation"
    else if !st.verifySO obs.signedObservation (followerReportContext st)
        ((st.config.oracleIdentities.getD obs.observer default).offchainPublicKey) then
      .error "invalid signed observation"
    else
      checkObservations st rest (obs.observer :: counted)

/-- The `verifyReportReq`: sortedness by observation value, then the per-entry
bounds/distinctness/signature checks, then the `2F < #counted` quorum bound. -/
def verifyReportReq (st : RGState) (msg : MessageReportReq) : Except String Unit :=
  if !sliceIsSorted (fun a b => obsLess a.signedObservation.observation b.signedObservation.observation)
      msg.attributedSignedObservations then
    .error "messages not sorted by value"
  else
    match checkObservations st msg.attributedSignedObservations [] with
    | .error e => .error e
    | .ok counted =>
      if counted.length ≤ 2 * st.config.f then
        .error "not enough observations in report"
      else
        .ok ()

/-- The `keys` map built in `verifyAttestedReport`: on-chain signing address
to oracle id, one entry per committee member. -/
def ethAddresses (c : SharedConfig) : List (Nat × Nat) :=
  c.oracleIdentities.enum.map (fun p => (p.2.onChainSigningAddress, p.1))

/-- The `verifyAttestedReport`: false when there are at most `F` signatures,
otherwise defers to `VerifySignatures` with the committee key map. -/
def verifyAttestedReport (st : RGState) (report : AttestedReportMany) : Bool :=
  if report.signatures.length ≤ st.config.f then
    false
  else
    st.verifySignatures (followerReportContext st) (ethAddresses st.config) report

/-- The `completeRound`: sets `completedRound` and emits `Progress` to the
pacemaker. -/
def completeRound (fs : FollowerState) : FollowerState × List Event :=
  ({ fs with completedRound := true }, [Event.progress])

/-- Number of `true` entries of `receivedEcho`, as counted by the loop in
`messageFinalEcho`. -/
def countTrue (l : List Bool) : Nat :=
  (l.filter (fun b => b)).length

/-- The `messageObserveReq`: the four guards in source order, then the round
advance; past `RMax` only a `ChangeLeader` is emitted, otherwise the
per-round state is reset, telemetry fires, and a fresh observation is
(possibly) signed and sent to the leader. -/
def messageObserveReq (st : RGState) (msg : MessageObserveReq) (sender : Nat) :
    RGState × List Event :=
  if msg.epoch ≠ st.e then (st, [])
  else if sender ≠ st.l then (st, [])
  else if msg.round ≤ st.followerState.r then (st, [])
  else if st.config.rMax + 1 < msg.round then (st, [])
  else
    let st := { st with followerState := { st.followerState with r := msg.round } }
    if st.config.rMax < st.followerState.r then
      (st, [Event.changeLeader])
    else
      let st := { st with followerState :=
        { st.followerState with
            sentEcho := none
            sentReport := false
            completedRound := false
            receivedEcho := List.replicate st.config.numOracles false } }
      match st.observedValue with
      | none => (st, [Event.roundStarted])
      | some v =>
        match st.makeSignedObservation v (followerReportContext st) with
        | .error _ => (st, [Event.roundStarted])
        | .ok so =>
          if !st.verifySO so (followerReportContext st) st.publicKeyOffChain then
            (st, [Event.roundStarted])
          else
            (st, [Event.roundStarted,
                  Event.sendTo (Message.observe st.e st.followerState.r so) st.l])

/-- The `shouldReport`: on `LatestTransmissionDetails` error report anyway; when
`MakeObservation` rejects the on-chain answer return false; otherwise report
iff the initial-round, deviation, or heartbeat condition holds.  (The Go
code indexes `observations[len(observations)/2]`; its only caller reaches it
with more than `2F ≥ 0` observations, so the slice is never empty.) -/
def shouldReport (st : RGState) (observations : List AttributedSignedObservation) : Bool :=
  match st.latestTransmissionDetails with
  | .error _ => true
  | .ok (contractConfigDigest, contractEpoch, contractRound, rawAnswer, timestamp) =>
    match MakeObservation rawAnswer with
    | .error _ => false
    | .ok answer =>
      let initialRound : Bool :=
        decide (contractConfigDigest = st.config.configDigest ∧
                contractEpoch = 0 ∧ contractRound = 0)
      let deviation : Bool :=
        Deviates
          ((observations.getD (observations.length / 2) default).signedObservation.observation)
          answer st.config.alphaPPB
      let deltaCTimeout : Bool := decide (timestamp + st.config.deltaC < st.now)
      initialRound || deviation || deltaCTimeout

/-- The `messageReportReq`: the five guards in source order, `verifyReportReq`,
then either sign-and-send the report (when `shouldReport`) or complete the
round. -/
def messageReportReq (st : RGState) (msg : MessageReportReq) (sender : Nat) :
    RGState × List Event :=
  if st.e ≠ msg.epoch then (st, [])
  else if sender ≠ st.l then (st, [])
  else if st.followerState.r ≠ msg.round then (st, [])
  else if st.followerState.sentReport then (st, [])
  else if st.followerState.completedRound then (st, [])
  else
    match verifyReportReq st msg with
    | .error _ => (st, [])
    | .ok _ =>
      if shouldReport st msg.attributedSignedObservations then
        let attributedValues := msg.attributedSignedObservations.map
          (fun aso => (aso.signedObservation.observation, aso.observer))
        match st.makeAttestedReportOne attributedValues (followerReportContext st) with
        | .error _ => (st, [])
        | .ok report =>
          if !st.verifyOwnReport report (followerReportContext st) then (st, [])
          else
            ({ st with followerState := { st.followerState with sentReport := true } },
             [Event.sendTo (Message.report st.e st.followerState.r report) st.l])
      else
        let p := completeRound st.followerState
        ({ st with followerState := p.1 }, p.2)

/-- The `messageFinal`: guards in source order, then store the report as
`sentEcho` and broadcast a `MessageFinalEcho`. -/
def messageFinal (st : RGState) (msg : MessageFinal) (sender : Nat) :
    RGState × List Event :=
  if msg.epoch ≠ st.e then (st, [])
  else if msg.round ≠ st.followerState.r then (st, [])
  else if sender ≠ st.l then (st, [])
  else if st.followerState.sentEcho.isSome then (st, [])
  else if !verifyAttestedReport st msg.report then (st, [])
  else
    ({ st with followerState := { st.followerState with sentEcho := some msg.report } },
     [Event.broadcast (Message.finalEcho ⟨msg.epoch, msg.round, msg.report⟩)])

/-- The `messageFinalEcho`: guards in source order; on pass mark the sender's
echo, adopt-and-rebroadcast when `sentEcho` is still empty, and when more
than `F` echoes are in, emit `Transmit` and complete the round. -/
def messageFinalEcho (st : RGState) (msg : MessageFinalEcho) (sender : Nat) :
    RGState × List Event :=
  if msg.epoch ≠ st.e then (st, [])
  else if msg.round ≠ st.followerState.r then (st, [])
  else if st.followerState.receivedEcho.getD sender false then (st, [])
  else if st.followerState.completedRound then (st, [])
  else if !verifyAttestedReport st msg.report then (st, [])
  else
    let fs1 := { st.followerState with
                   receivedEcho := st.followerState.receivedEcho.set sender true }
    let adopt :=
      match fs1.sentEcho with
      | none => ({ fs1 with sentEcho := some msg.report },
                 [Event.broadcast (Message.finalEcho msg)])
      | some _ => (fs1, [])
    let fs2 := adopt.1
    if st.config.f < countTrue fs2.receivedEcho then
      let p := completeRound fs2
      ({ st with followerState := p.1 },
       adopt.2 ++ Event.transmit st.e st.followerState.r (fs2.sentEcho.getD default) :: p.2)
    else
      ({ st with followerState := fs2 }, adopt.2)

/-!
## Managed-oracle supervisor (`src/unnamed/part_001`)

`configChanged` is embedded as a pure function of the supervisor state and
an environment recording what each external call returns during this
particular invocation (`SharedConfigFromContractConfig`, `MakeEndpoint`,
`netEndpoint.Start()`, `database.WriteConfig`).  Endpoints are named by
`Nat` handles; spawning `protocol.RunOracle` and log calls are recorded as
actions.
-/

/-- Observable actions of one `configChanged` invocation. -/
inductive MOAction where
  | logDecodeError
  | logMakeEndpointError
  | logStartError
  | logWriteConfigError
  | spawnOracle (endpoint : Nat)
  | closeEndpoint (endpoint : Nat)
deriving DecidableEq, Repr

/-- The fields of `managedOracleState` that `configChanged`/`closeOracle`
read and write: the decoded config, the live endpoint (if any) and the
cancel function for the running oracle subtree (modelled as a flag). -/
structure ManagedOracleState where
  config : SharedConfig
  netEndpoint : Option Nat
  oracleCancel : Bool
deriving DecidableEq, Repr

/-- What the external collaborators return during one `configChanged` call. -/
structure ConfigChangedEnv where
  /-- The `config.SharedConfigFromContractConfig(...)`: the decoded
  `(SharedConfig, OracleID)` or a decode error. -/
  decode : Except String (SharedConfig × Nat)
  /-- The `netEndpointFactory.MakeEndpoint(...)`: a fresh endpoint handle or an
  error. -/
  makeEndpoint : Except String Nat
  /-- The `netEndpoint.Start()`. -/
  startEndpoint : Nat → Except String Unit
  /-- The `database.WriteConfig(childCtx, contractConfig)`. -/
  writeConfig : Except String Unit

/-- The `closeOracle`: when an oracle is running, cancel it, wait, close the
endpoint (errors logged and swallowed) and null the fields. -/
def closeOracle (mo : ManagedOracleState) : ManagedOracleState × List MOAction :=
  if mo.oracleCancel then
    ({ mo with oracleCancel := false, netEndpoint := none },
     (mo.netEndpoint.map MOAction.closeEndpoint).toList)
  else
    (mo, [])

/-- The `configChanged`: tear down the previous instance, decode the new config
(assigned to `mo.config` even on the same line the error is produced; on
error the Go callee returns the zero `SharedConfig`), build and start the
new endpoint, spawn `protocol.RunOracle`, and best-effort persist the
config, logging (but otherwise ignoring) a `WriteConfig` failure. -/
def configChanged (env : ConfigChangedEnv) (mo : ManagedOracleState) :
    ManagedOracleState × List MOAction :=
  let closed := closeOracle mo
  match env.decode with
  | .error _ => ({ closed.1 with config := default },
                 closed.2 ++ [MOAction.logDecodeError])
  | .ok (cfg, _oid) =>
    let mo1 := { closed.1 with config := cfg }
    match env.makeEndpoint with
    | .error _ => (mo1, closed.2 ++ [MOAction.logMakeEndpointError])
    | .ok endpoint =>
      match env.startEndpoint endpoint with
      | .error _ => (mo1, closed.2 ++ [MOAction.logStartError])
      | .ok _ =>
        let mo2 := { mo1 with netEndpoint := some endpoint, oracleCancel := true }
        let acts := closed.2 ++ [MOAction.spawnOracle endpoint]
        match env.writeConfig with
        | .error _ => (mo2, acts ++ [MOAction.logWriteConfigError])
        | .ok _ => (mo2, acts)

/-!
## Token-bucket parameters (`src/unnamed/part_001`)

The Go code computes over `float64`; the model computes over `ℚ`, reading
each `float64(d)` of a `time.Duration` as the exact number of nanoseconds.
-/

/-- The `float64(time.Second)`: nanoseconds per second. -/
def nanosPerSecond : ℚ := 1000000000

/-- The timing fields of `config.PublicConfig` that
`computeTokenBucketRefillRate` reads, in nanoseconds. -/
structure PublicConfigDeltas where
  deltaResend : ℚ
  deltaProgress : ℚ
  deltaRound : ℚ
deriving DecidableEq, Repr

/-- The `computeTokenBucketRefillRate`, term for term. -/
def computeTokenBucketRefillRate (cfg : PublicConfigDeltas) : ℚ :=
  (1 * nanosPerSecond / cfg.deltaResend +
   1 * nanosPerSecond / cfg.deltaProgress +
   1 * nanosPerSecond / cfg.deltaRound +
   3 * nanosPerSecond / cfg.deltaRound +
   2 * nanosPerSecond / cfg.deltaRound) * 2

/-- The `computeTokenBucketSize`. -/
def computeTokenBucketSize : Int := (2 + 6) * 2

/-!
## BootstrapNode (`src/unnamed/part_000`)

`started` models the weighted semaphore of capacity 1: it is `true` once
`TryAcquire(1)` has succeeded, and nothing ever releases it.  `Start`
either panics (`failIfAlreadyStarted`) or returns `nil` with the node
started and its cancel function installed.
-/

/-- The `BootstrapNode` fields that `Start`/`Close` touch. -/
structure BootstrapNode where
  started : Bool
  cancelSet : Bool
deriving DecidableEq, Repr

/-- Result of `BootstrapNode.Start`: either the Go `panic` in
`failIfAlreadyStarted`, or a normal `nil` return with the updated node. -/
inductive StartResult where
  | panicked
  | ok (node : BootstrapNode)
deriving DecidableEq, Repr

/-- The `NewBootstrapNode`: sanity-check the local config, then return a node
whose semaphore is unacquired. -/
def NewBootstrapNode (sanityCheckOk : Bool) : Except String BootstrapNode :=
  if sanityCheckOk then .ok { started := false, cancelSet := false }
  else .error "bad local config while creating bootstrap node"

/-- The `BootstrapNode.Start`: `failIfAlreadyStarted` panics when the semaphore
cannot be acquired; otherwise install the cancel function, spawn the
managed bootstrap node, and return `nil`. -/
def BootstrapNode.start (b : BootstrapNode) : StartResult :=
  if b.started then .panicked
  else .ok { b with started := true, cancelSet := true }

/-- The `BootstrapNode.Close`: cancel if a cancel function is installed, wait
for subprocesses, and return `nil`; no field changes. -/
def BootstrapNode.close (b : BootstrapNode) : BootstrapNode × Option String :=
  (b, none)

/-!
## Concrete instances used by the witnesses
-/

/-- A committee member with distinct key fields. -/
def testIdentity (i : Nat) : OracleIdentity :=
  ⟨i, 100 + i, 200 + i, 300 + i⟩

/-- The spec's scenario configuration: `N = 4`, `F = 1`, `RMax = 10`,
`AlphaPPB = 1000000`. -/
def testConfig : SharedConfig :=
  { configDigest := 7
    oracleIdentities := [testIdentity 0, testIdentity 1, testIdentity 2, testIdentity 3]
    f := 1
    rMax := 10
    alphaPPB := 1000000
    deltaC := 1000000000 }

/-- A fresh follower state at round 0. -/
def testFollowerState : FollowerState :=
  { r := 0, sentEcho := none, sentReport := false, completedRound := false,
    receivedEcho := [false, false, false, false] }

/-- A follower with a toy signature scheme: a signed observation verifies
iff its signature equals `|value| + round + key`. -/
def testState : RGState :=
  { config := testConfig
    e := 1
    l := 0
    id := 1
    followerState := testFollowerState
    verifySO := fun so ctx key => decide (so.signature = so.observation.natAbs + ctx.round + key)
    verifySignatures := fun _ _ _ => true
    makeSignedObservation := fun v ctx => .ok ⟨v, v.natAbs + ctx.round + 201⟩
    makeAttestedReportOne := fun vals _ => .ok ⟨vals, [1, 2]⟩
    verifyOwnReport := fun _ _ => true
    publicKeyOffChain := 201
    observedValue := some 100
    latestTransmissionDetails := .ok (7, 0, 0, 100, 1000)
    now := 5000 }

/-- The `testState` with the blockchain unreachable (scenario S9). -/
def testStateErrLtd : RGState :=
  { testState with latestTransmissionDetails := .error "blockchain down" }

/-- The `testState` with an on-chain answer outside the 192-bit observation
domain. -/
def testStateBadAnswer : RGState :=
  { testState with latestTransmissionDetails := .ok (7, 0, 0, 2 ^ 200, 1000) }

/-- The `testState` with one echo already recorded. -/
def testStateOneEcho : RGState :=
  { testState with followerState :=
      { testFollowerState with receivedEcho := [true, false, false, false] } }

/-- The `testState` after `completeRound`. -/
def testStateCompleted : RGState :=
  { testState with followerState := { testFollowerState with completedRound := true } }

/-- A signed observation that verifies under `testState`'s toy scheme for
the given observer at round 0. -/
def testASO (v : Int) (observer : Nat) : AttributedSignedObservation :=
  ⟨⟨v, v.natAbs + 200 + observer⟩, observer⟩

/-- A report request with `2F + 1 = 3` valid, sorted, distinct observations. -/
def testReportReqMsg : MessageReportReq :=
  ⟨1, 0, [testASO 100 1, testASO 100 2, testASO 101 3]⟩

/-- A report request with only `2F = 2` distinct observers (scenario S5). -/
def testReportReq2F : MessageReportReq :=
  ⟨1, 0, [testASO 100 1, testASO 101 2]⟩

/-- A final-echo message carrying a report with `F + 1 = 2` signatures. -/
def testEchoMsg : MessageFinalEcho :=
  ⟨1, 0, ⟨[(100, 1), (100, 2), (101, 3)], [11, 12]⟩⟩

/-!
## Theorems
-/

/-- The `sort.SliceIsSorted` under `Observation.Less` is non-strict ascending
sortedness of the observation values. -/
theorem sliceIsSorted_iff_chain (asos : List AttributedSignedObservation) :
    sliceIsSorted
        (fun a b => obsLess a.signedObservation.observation b.signedObservation.observation)
        asos = true ↔
      List.Chain' (· ≤ ·) (asos.map (·.signedObservation.observation)) := by
  induction asos with
  | nil => simp [sliceIsSorted]
  | cons a rest ih =>
    cases rest with
    | nil => simp [sliceIsSorted]
    | cons b rest2 =>
      simp only [sliceIsSorted, Bool.and_eq_true, Bool.not_eq_true', obsLess,
        decide_eq_false_iff_not, Int.not_lt, List.map_cons, List.chain'_cons] at ih ⊢
      exact and_congr_right fun _ => ih

/-- Definitional unfolding of `checkObservations` on a cons cell. -/
theorem checkObservations_cons (st : RGState) (a : AttributedSignedObservation)
    (rest : List AttributedSignedObservation) (counted : List Nat) :
    checkObservations st (a :: rest) counted =
      if st.config.numOracles ≤ a.observer then
        .error "oracle ID out of bounds"
      else if a.observer ∈ counted then
        .error "duplicate observation"
      else if !st.verifySO a.signedObservation (followerReportContext st)
          ((st.config.oracleIdentities.getD a.observer default).offchainPublicKey) then
        .error "invalid signed observation"
      else
        checkObservations st rest (a.observer :: counted) := rfl

/-- Characterization of the `verifyReportReq` signature loop: it succeeds
iff every entry is in bounds with a valid signature, the observers are
pairwise distinct and disjoint from `counted`, and the resulting set is the
observers prepended (in reverse) to `counted`. -/
theorem checkObservations_ok_iff (st : RGState) (asos : List AttributedSignedObservation)
    (counted res : List Nat) :
    checkObservations st asos counted = .ok res ↔
      ((∀ a ∈ asos, a.observer < st.config.numOracles ∧
          st.verifySO a.signedObservation (followerReportContext st)
            ((st.config.oracleIdentities.getD a.observer default).offchainPublicKey) = true) ∧
       (asos.map (·.observer)).Nodup ∧
       (∀ a ∈ asos, a.observer ∉ counted) ∧
       res = (asos.map (·.observer)).reverse ++ counted) := by
  induction asos generalizing counted with
  | nil =>
    simp only [checkObservations, List.not_mem_nil, false_implies, implies_true,
      List.map_nil, List.nodup_nil, List.reverse_nil, List.nil_append, true_and,
      Except.ok.injEq]
    exact eq_comm
  | cons a rest ih =>
    by_cases h1 : st.config.numOracles ≤ a.observer
    · have hL : checkObservations st (a :: rest) counted = .error "oracle ID out of bounds" := by
        rw [checkObservations_cons, if_pos h1]
      rw [hL]
      constructor
      · intro h
        cases h
      · rintro ⟨hall, -, -, -⟩
        exact absurd (hall a (List.mem_cons_self a rest)).1 (Nat.not_lt.mpr h1)
    · by_cases h2 : a.observer ∈ counted
      · have hL : checkObservations st (a :: rest) counted = .error "duplicate observation" := by
          rw [checkObservations_cons, if_neg h1, if_pos h2]
        rw [hL]
        constructor
        · intro h
          cases h
        · rintro ⟨-, -, hdisj, -⟩
          exact absurd h2 (hdisj a (List.mem_cons_self a rest))
      · by_cases h3 : st.verifySO a.signedObservation (followerReportContext st)
            ((st.config.oracleIdentities.getD a.observer default).offchainPublicKey) = true
        · have hL : checkObservations st (a :: rest) counted
              = checkObservations st rest (a.observer :: counted) := by
            rw [checkObservations_cons, if_neg h1, if_neg h2]
            simp only [h3, Bool.not_true]
            exact if_neg (by simp)
          rw [hL, ih]
          constructor
          · rintro ⟨hall, hnd, hdisj, hres⟩
            refine ⟨?_, ?_, ?_, ?_⟩
            · intro x hx
              rcases List.mem_cons.mp hx with rfl | hx'
              · exact ⟨Nat.lt_of_not_le h1, h3⟩
              · exact hall x hx'
            · rw [List.map_cons, List.nodup_cons]
              refine ⟨?_, hnd⟩
              intro hmem
              rcases List.mem_map.mp hmem with ⟨x, hx, hxo⟩
              exact hdisj x hx (List.mem_cons.mpr (Or.inl hxo))
            · intro x hx
              rcases List.mem_cons.mp hx with rfl | hx'
              · exact h2
              · exact fun hc => hdisj x hx' (List.mem_cons.mpr (Or.inr hc))
            · rw [hres]
              simp
          · rintro ⟨hall, hnd, hdisj, hres⟩
            rw [List.map_cons, List.nodup_cons] at hnd
            refine ⟨?_, hnd.2, ?_, ?_⟩
            · intro x hx
              exact hall x (List.mem_cons.mpr (Or.inr hx))
            · intro x hx
              intro hc
              rcases List.mem_cons.mp hc with hco | hco
              · exact hnd.1 (List.mem_map.mpr ⟨x, hx, hco⟩)
              · exact hdisj x (List.mem_cons.mpr (Or.inr hx)) hco
            · rw [hres]
              simp
        · have h3' : st.verifySO a.signedObservation (followerReportContext st)
              ((st.config.oracleIdentities.getD a.observer default).offchainPublicKey) = false :=
            Bool.not_eq_true _ |>.mp h3
          have hL : checkObservations st (a :: rest) counted
              = .error "invalid signed observation" := by
            rw [checkObservations_cons, if_neg h1, if_neg h2]
            simp only [h3', Bool.not_false]
            exact if_pos trivial
          rw [hL]
          constructor
          · intro h
            cases h
          · rintro ⟨hall, -, -, -⟩
            rw [(hall a (List.mem_cons_self a rest)).2] at h3'
            cases h3'

/-- C1: `verifyReportReq` accepts a `MessageReportReq` iff the attributed
signed observations are sorted ascending by observation value, every
observer is an oracle id in `[0, N)`, no two entries share an observer,
every signature verifies under the identified oracle's off-chain key over
the report context `(ConfigDigest, e, r)`, and the number of distinct
observers is strictly greater than `2F`; it errors whenever any of these
fails, in particular on a request with exactly `2F` distinct observers. -/
theorem verifyReportReq_characterization (st : RGState) (msg : MessageReportReq) :
    (verifyReportReq st msg = .ok () ↔
      (List.Chain' (· ≤ ·)
          (msg.attributedSignedObservations.map (·.signedObservation.observation)) ∧
       (∀ a ∈ msg.attributedSignedObservations,
          a.observer < st.config.numOracles ∧
          st.verifySO a.signedObservation (followerReportContext st)
            ((st.config.oracleIdentities.getD a.observer default).offchainPublicKey) = true) ∧
       (msg.attributedSignedObservations.map (·.observer)).Nodup ∧
       2 * st.config.f < msg.attributedSignedObservations.length)) ∧
    (msg.attributedSignedObservations.length = 2 * st.config.f →
      ∃ s, verifyReportReq st msg = .error s) := by
  have main : verifyReportReq st msg = .ok () ↔
      (List.Chain' (· ≤ ·)
          (msg.attributedSignedObservations.map (·.signedObservation.observation)) ∧
       (∀ a ∈ msg.attributedSignedObservations,
          a.observer < st.config.numOracles ∧
          st.verifySO a.signedObservation (followerReportContext st)
            ((st.config.oracleIdentities.getD a.observer default).offchainPublicKey) = true) ∧
       (msg.attributedSignedObservations.map (·.observer)).Nodup ∧
       2 * st.config.f < msg.attributedSignedObservations.length) := by
    by_cases hs : sliceIsSorted
        (fun a b => obsLess a.signedObservation.observation b.signedObservation.observation)
        msg.attributedSignedObservations = true
    · have hstep : verifyReportReq st msg =
          (match checkObservations st msg.attributedSignedObservations [] with
           | .error e => .error e
           | .ok counted =>
             if counted.length ≤ 2 * st.config.f then
               .error "not enough observations in report"
             else
               .ok ()) := by
        unfold verifyReportReq
        simp only [hs, Bool.not_true]
        exact if_neg (by simp)
      cases hco : checkObservations st msg.attributedSignedObservations [] with
      | error e =>
        have hstep2 : verifyReportReq st msg = .error e := by
          rw [hstep, hco]
        rw [hstep2]
        constructor
        · intro h
          cases h
        · rintro ⟨-, hall, hnd, -⟩
          have : checkObservations st msg.attributedSignedObservations [] =
              .ok ((msg.attributedSignedObservations.map (·.observer)).reverse ++ []) :=
            (checkObservations_ok_iff st _ [] _).mpr ⟨hall, hnd, by simp, rfl⟩
          rw [hco] at this
          cases this
      | ok counted =>
        obtain ⟨hall, hnd, -, hres⟩ :=
          (checkObservations_ok_iff st msg.attributedSignedObservations [] counted).mp hco
        have hlen : counted.length = msg.attributedSignedObservations.length := by
          rw [hres]
          simp
        have hstep2 : verifyReportReq st msg =
            (if counted.length ≤ 2 * st.config.f then
               (.error "not enough observations in report" : Except String Unit)
             else
               .ok ()) := by
          rw [hstep, hco]
        rw [hstep2]
        by_cases hq : counted.length ≤ 2 * st.config.f
        · rw [if_pos hq]
          constructor
          · intro h
            cases h
          · rintro ⟨-, -, -, hcard⟩
            omega
        · rw [if_neg hq]
          constructor
          · intro _
            exact ⟨(sliceIsSorted_iff_chain _).mp hs, hall, hnd, by omega⟩
          · intro _
            rfl
    · have hs' : sliceIsSorted
          (fun a b => obsLess a.signedObservation.observation b.signedObservation.observation)
          msg.attributedSignedObservations = false := Bool.not_eq_true _ |>.mp hs
      have hstep : verifyReportReq st msg = .error "messages not sorted by value" := by
        unfold verifyReportReq
        simp only [hs', Bool.not_false]
        exact if_pos trivial
      rw [hstep]
      constructor
      · intro h
        cases h
      · rintro ⟨hchain, -, -, -⟩
        rw [(sliceIsSorted_iff_chain _).mpr hchain] at hs'
        cases hs'
  refine ⟨main, ?_⟩
  intro hlen
  cases hval : verifyReportReq st msg with
  | error s => exact ⟨s, rfl⟩
  | ok u =>
    cases u
    have := (main.mp hval).2.2.2
    omega

/-- Witness for C1: under the toy signature scheme, the 3-observation
request (observers 1, 2, 3, values 100 ≤ 100 ≤ 101, `2F + 1 = 3 > 2`)
passes `verifyReportReq`, and the request with exactly `2F = 2` distinct
observers is rejected. -/
theorem verifyReportReq_characterization_witness :
    verifyReportReq testState testReportReqMsg = .ok () ∧
    (∃ s, verifyReportReq testState testReportReq2F = .error s) :=
  ⟨(verifyReportReq_characterization testState testReportReqMsg).1.mpr
      ⟨by simp [testReportReqMsg, testASO, List.chain'_cons, List.chain'_singleton],
       by decide, by decide, by decide⟩,
   (verifyReportReq_characterization testState testReportReq2F).2 (by decide)⟩

/-- C3: a `MessageObserveReq` is dropped, with the state unchanged and no
event emitted (in particular no `ChangeLeader`), unless all four guards
hold: right epoch, sender is the leader, the round strictly advances, and
the round is at most `RMax + 1`. -/
theorem messageObserveReq_drop (st : RGState) (msg : MessageObserveReq) (sender : Nat)
    (h : ¬ (msg.epoch = st.e ∧ sender = st.l ∧ st.followerState.r < msg.round ∧
            msg.round ≤ st.config.rMax + 1)) :
    messageObserveReq st msg sender = (st, []) := by
  by_cases h1 : msg.epoch = st.e
  · by_cases h2 : sender = st.l
    · by_cases h3 : msg.round ≤ st.followerState.r
      · simp [messageObserveReq, h1, h2, h3]
      · have h4 : st.config.rMax + 1 < msg.round := by
          push_neg at h
          exact Nat.lt_of_not_le fun hc => absurd (h h1 h2 (Nat.lt_of_not_le h3)) (by omega)
        simp [messageObserveReq, h1, h2, h3, h4]
    · simp [messageObserveReq, h1, h2]
  · simp [messageObserveReq, h1]

/-- Witness for C3 (scenario S3): at `r = 0`, `RMax = 10`, an `ObserveReq`
for round `12 = RMax + 2` from the leader of the right epoch is dropped
without state change and without a `ChangeLeader` event. -/
theorem messageObserveReq_drop_witness :
    messageObserveReq testState ⟨1, 12⟩ 0 = (testState, []) :=
  messageObserveReq_drop testState ⟨1, 12⟩ 0 (by decide)

/-- C4: when all four guards pass and `msg.Round > RMax`, the handler sets
`followerState.r = msg.Round`, emits exactly one `ChangeLeader` event, and
returns without resetting the per-round state, without observing, and
without sending anything to the leader. -/
theorem messageObserveReq_changeLeader (st : RGState) (msg : MessageObserveReq) (sender : Nat)
    (h1 : msg.epoch = st.e) (h2 : sender = st.l)
    (h3 : st.followerState.r < msg.round)
    (h4 : msg.round ≤ st.config.rMax + 1)
    (h5 : st.config.rMax < msg.round) :
    messageObserveReq st msg sender =
      ({ st with followerState := { st.followerState with r := msg.round } },
       [Event.changeLeader]) := by
  have h3' : ¬ (msg.round ≤ st.followerState.r) := Nat.not_le.mpr h3
  have h4' : ¬ (st.config.rMax + 1 < msg.round) := Nat.not_lt.mpr h4
  simp [messageObserveReq, h1, h2, h3', h4', h5]

/-- Witness for C4 (scenario S4): an `ObserveReq` for round
`11 = RMax + 1` sets `r = 11`, emits `ChangeLeader`, and leaves the rest of
the follower state untouched with no observation sent. -/
theorem messageObserveReq_changeLeader_witness :
    messageObserveReq testState ⟨1, 11⟩ 0 =
      ({ testState with followerState := { testFollowerState with r := 11 } },
       [Event.changeLeader]) :=
  messageObserveReq_changeLeader testState ⟨1, 11⟩ 0 rfl rfl (by decide) (by decide) (by decide)

/-- C2: for a `MessageFinalEcho` that passes all guards (same epoch, exact
round, no prior echo from this sender, round not completed, report
verifies), `Transmit(e, r, sentEcho)` is emitted and `completeRound` is
called (so `completedRound` becomes true and `Progress` fires) iff, after
recording `receivedEcho[sender] = true`, the number of true entries
exceeds `F`; and at that moment `sentEcho` is set (the round was not
completed before, by the guard hypothesis `hcomp`). -/
theorem messageFinalEcho_quorum (st : RGState) (msg : MessageFinalEcho) (sender : Nat)
    (he : msg.epoch = st.e) (hr : msg.round = st.followerState.r)
    (hdup : st.followerState.receivedEcho.getD sender false = false)
    (hcomp : st.followerState.completedRound = false)
    (hver : verifyAttestedReport st msg.report = true) :
    ((∃ rep, Event.transmit st.e st.followerState.r rep ∈ (messageFinalEcho st msg sender).2) ∧
     (messageFinalEcho st msg sender).1.followerState.completedRound = true ∧
     Event.progress ∈ (messageFinalEcho st msg sender).2 ∧
     (messageFinalEcho st msg sender).1.followerState.sentEcho.isSome = true)
      ↔ st.config.f < countTrue (st.followerState.receivedEcho.set sender true) := by
  have hdup' : st.followerState.receivedEcho[sender]?.getD false = false := by
    rw [← List.getD_eq_getElem?_getD]
    exact hdup
  cases hse : st.followerState.sentEcho with
  | none =>
    by_cases hcount : st.config.f < countTrue (st.followerState.receivedEcho.set sender true)
    · simp [messageFinalEcho, he, hr, hdup', hcomp, hver, hse, completeRound, hcount]
    · simp [messageFinalEcho, he, hr, hdup', hcomp, hver, hse, completeRound, hcount]
  | some rep0 =>
    by_cases hcount : st.config.f < countTrue (st.followerState.receivedEcho.set sender true)
    · simp [messageFinalEcho, he, hr, hdup', hcomp, hver, hse, completeRound, hcount]
    · simp [messageFinalEcho, he, hr, hdup', hcomp, hver, hse, completeRound, hcount]

/-- Witness for C2: with `F = 1` and one echo already recorded, a valid
final-echo from sender 2 brings the count to `2 > F`; the handler emits
`Transmit` and `Progress`, sets `completedRound`, and `sentEcho` is set. -/
theorem messageFinalEcho_quorum_witness :
    (∃ rep, Event.transmit testStateOneEcho.e testStateOneEcho.followerState.r rep ∈
        (messageFinalEcho testStateOneEcho testEchoMsg 2).2) ∧
    (messageFinalEcho testStateOneEcho testEchoMsg 2).1.followerState.completedRound = true ∧
    Event.progress ∈ (messageFinalEcho testStateOneEcho testEchoMsg 2).2 ∧
    (messageFinalEcho testStateOneEcho testEchoMsg 2).1.followerState.sentEcho.isSome = true :=
  (messageFinalEcho_quorum testStateOneEcho testEchoMsg 2 rfl rfl rfl rfl rfl).mpr (by decide)

/-- C6: once `completedRound` is true, any further `MessageReportReq` or
`MessageFinalEcho` for the same epoch and round is dropped with no change
to the follower state and no event (in particular no `Transmit` and no
`Progress`). -/
theorem completedRound_drops (st : RGState) (msg1 : MessageReportReq)
    (msg2 : MessageFinalEcho) (sender1 sender2 : Nat)
    (hc : st.followerState.completedRound = true)
    (he1 : msg1.epoch = st.e) (hr1 : msg1.round = st.followerState.r)
    (he2 : msg2.epoch = st.e) (hr2 : msg2.round = st.followerState.r) :
    messageReportReq st msg1 sender1 = (st, []) ∧
    messageFinalEcho st msg2 sender2 = (st, []) := by
  constructor
  · by_cases h2 : sender1 = st.l
    · by_cases h4 : st.followerState.sentReport
      · simp [messageReportReq, he1, hr1, h2, h4]
      · simp [messageReportReq, he1, hr1, h2, h4, hc]
    · simp [messageReportReq, he1, h2]
  · by_cases h3 : st.followerState.receivedEcho[sender2]?.getD false = true
    · simp [messageFinalEcho, he2, hr2, h3]
    · simp [messageFinalEcho, he2, hr2, h3, hc]

/-- Witness for C6: after `completeRound` at `(e, r) = (1, 0)`, a report
request and a final echo for `(1, 0)` both leave the state unchanged and
emit nothing. -/
theorem completedRound_drops_witness :
    messageReportReq testStateCompleted ⟨1, 0, []⟩ 0 = (testStateCompleted, []) ∧
    messageFinalEcho testStateCompleted testEchoMsg 2 = (testStateCompleted, []) :=
  completedRound_drops testStateCompleted ⟨1, 0, []⟩ testEchoMsg 0 2 rfl rfl rfl rfl rfl

/-- C5: `shouldReport` returns true whenever `LatestTransmissionDetails`
errors; otherwise, when the on-chain answer converts to a valid
observation, it returns true iff the initial-round condition, the
median-deviation condition, or the heartbeat condition holds. -/
theorem shouldReport_policy (st : RGState)
    (observations : List AttributedSignedObservation) :
    ((∃ e, st.latestTransmissionDetails = .error e) →
        shouldReport st observations = true) ∧
    (∀ contractConfigDigest contractEpoch contractRound rawAnswer timestamp answer,
      st.latestTransmissionDetails =
          .ok (contractConfigDigest, contractEpoch, contractRound, rawAnswer, timestamp) →
      MakeObservation rawAnswer = .ok answer →
      (shouldReport st observations = true ↔
        ((contractConfigDigest = st.config.configDigest ∧
            contractEpoch = 0 ∧ contractRound = 0) ∨
         Deviates
           ((observations.getD (observations.length / 2) default).signedObservation.observation)
           answer st.config.alphaPPB = true ∨
         timestamp + st.config.deltaC < st.now))) := by
  constructor
  · rintro ⟨e, he⟩
    simp [shouldReport, he]
  · intro contractConfigDigest contractEpoch contractRound rawAnswer timestamp answer hok hmk
    simp only [shouldReport, hok, hmk, Bool.or_eq_true, decide_eq_true_eq]
    exact or_assoc

/-- Witness for C5: with the blockchain unreachable the follower errs
toward reporting (scenario S9), and in the initial round (contract epoch
and round both zero, matching digest) it reports as well. -/
theorem shouldReport_policy_witness :
    shouldReport testStateErrLtd [] = true ∧ shouldReport testState [] = true :=
  ⟨(shouldReport_policy testStateErrLtd []).1 ⟨"blockchain down", rfl⟩,
   ((shouldReport_policy testState []).2 7 0 0 100 1000 100 rfl
       (by norm_num [MakeObservation])).mpr
     (Or.inl ⟨rfl, rfl, rfl⟩)⟩

/-- C9: when `LatestTransmissionDetails` succeeds but `MakeObservation`
rejects the returned answer (outside the fixed-width observation domain),
`shouldReport` returns false — for this class of inputs it does not err
toward reporting. -/
theorem shouldReport_badAnswer (st : RGState)
    (observations : List AttributedSignedObservation)
    (contractConfigDigest contractEpoch contractRound : Nat) (rawAnswer timestamp : Int)
    (hok : st.latestTransmissionDetails =
        .ok (contractConfigDigest, contractEpoch, contractRound, rawAnswer, timestamp))
    (hmk : ∃ s, MakeObservation rawAnswer = .error s) :
    shouldReport st observations = false := by
  obtain ⟨s, hs⟩ := hmk
  simp [shouldReport, hok, hs]

/-- Witness for C9: an on-chain answer of `2 ^ 200`, beyond the 192-bit
observation range, makes `shouldReport` return false. -/
theorem shouldReport_badAnswer_witness :
    shouldReport testStateBadAnswer [] = false :=
  shouldReport_badAnswer testStateBadAnswer [] 7 0 0 (2 ^ 200) 1000 rfl
    ⟨"OutOfRange", by norm_num [MakeObservation]⟩

/-- C7: the token-bucket refill rate is exactly
`(1/DeltaResend + 1/DeltaProgress + 1/DeltaRound + 3/DeltaRound +
2/DeltaRound)` per second — each delta read in seconds — multiplied by 2,
and the bucket size is exactly `(2 + 6) * 2 = 16`. -/
theorem computeTokenBucket_values (cfg : PublicConfigDeltas)
    (hr : cfg.deltaResend ≠ 0) (hp : cfg.deltaProgress ≠ 0) (hd : cfg.deltaRound ≠ 0) :
    computeTokenBucketRefillRate cfg =
      (1 / (cfg.deltaResend / nanosPerSecond) +
       1 / (cfg.deltaProgress / nanosPerSecond) +
       1 / (cfg.deltaRound / nanosPerSecond) +
       3 / (cfg.deltaRound / nanosPerSecond) +
       2 / (cfg.deltaRound / nanosPerSecond)) * 2 ∧
    computeTokenBucketSize = 16 := by
  refine ⟨?_, rfl⟩
  unfold computeTokenBucketRefillRate nanosPerSecond
  field_simp

/-- Witness for C7 at `DeltaResend = 1s`, `DeltaProgress = 2s`,
`DeltaRound = 0.5s` (all nonzero). -/
theorem computeTokenBucket_values_witness :
    computeTokenBucketRefillRate ⟨1000000000, 2000000000, 500000000⟩ =
      (1 / ((1000000000 : ℚ) / nanosPerSecond) +
       1 / ((2000000000 : ℚ) / nanosPerSecond) +
       1 / ((500000000 : ℚ) / nanosPerSecond) +
       3 / ((500000000 : ℚ) / nanosPerSecond) +
       2 / ((500000000 : ℚ) / nanosPerSecond)) * 2 ∧
    computeTokenBucketSize = 16 :=
  computeTokenBucket_values ⟨1000000000, 2000000000, 500000000⟩
    (by norm_num) (by norm_num) (by norm_num)

/-- C8: when decoding, endpoint creation and endpoint start all succeed but
`database.WriteConfig` fails, `configChanged` logs the error and returns
normally: the resulting supervisor state is exactly what it would be had
the write succeeded — the new config is stored, the new endpoint is live,
the oracle subtree is running — and the write error is only logged. -/
theorem configChanged_writeFailure (env : ConfigChangedEnv) (mo : ManagedOracleState)
    (cfg : SharedConfig) (oid endpoint : Nat) (err : String)
    (hdec : env.decode = .ok (cfg, oid))
    (hmk : env.makeEndpoint = .ok endpoint)
    (hst : env.startEndpoint endpoint = .ok ())
    (hwr : env.writeConfig = .error err) :
    (configChanged env mo).1 = (configChanged { env with writeConfig := .ok () } mo).1 ∧
    (configChanged env mo).1.config = cfg ∧
    (configChanged env mo).1.netEndpoint = some endpoint ∧
    (configChanged env mo).1.oracleCancel = true ∧
    MOAction.logWriteConfigError ∈ (configChanged env mo).2 := by
  simp [configChanged, hdec, hmk, hst, hwr]

/-- Witness for C8 at a concrete environment whose `WriteConfig` fails. -/
theorem configChanged_writeFailure_witness :
    (configChanged
        ⟨.ok (testConfig, 1), .ok 42, fun _ => .ok (), .error "db down"⟩
        ⟨default, none, false⟩).1.config = testConfig ∧
    (configChanged
        ⟨.ok (testConfig, 1), .ok 42, fun _ => .ok (), .error "db down"⟩
        ⟨default, none, false⟩).1.netEndpoint = some 42 ∧
    (configChanged
        ⟨.ok (testConfig, 1), .ok 42, fun _ => .ok (), .error "db down"⟩
        ⟨default, none, false⟩).1.oracleCancel = true ∧
    MOAction.logWriteConfigError ∈
      (configChanged
        ⟨.ok (testConfig, 1), .ok 42, fun _ => .ok (), .error "db down"⟩
        ⟨default, none, false⟩).2 := by
  have h := configChanged_writeFailure
    ⟨.ok (testConfig, 1), .ok 42, fun _ => .ok (), .error "db down"⟩
    ⟨default, none, false⟩ testConfig 1 42 "db down" rfl rfl rfl rfl
  exact ⟨h.2.1, h.2.2.1, h.2.2.2.1, h.2.2.2.2⟩

/-- C10: a node returned by `NewBootstrapNode` is unstarted; calling
`Start` on an unstarted node returns `nil` and marks it started; calling
`Start` on a started node panics (and `Start` always leaves the node
started on success); `Close` can be called any number of times, before or
after `Start`, always returns `nil`, and changes no field — hence every
call to `Start` after the first panics, regardless of interleaved
`Close` calls. -/
theorem bootstrapNode_lifecycle :
    (∀ b, NewBootstrapNode true = .ok b → b.started = false) ∧
    (∀ b : BootstrapNode, b.started = false →
        BootstrapNode.start b = .ok { b with started := true, cancelSet := true }) ∧
    (∀ b : BootstrapNode, b.started = true → BootstrapNode.start b = .panicked) ∧
    (∀ b b' : BootstrapNode, BootstrapNode.start b = .ok b' → b'.started = true) ∧
    (∀ b : BootstrapNode, BootstrapNode.close b = (b, none)) := by
  refine ⟨?_, ?_, ?_, ?_, ?_⟩
  · intro b hb
    simp only [NewBootstrapNode, if_pos trivial, Except.ok.injEq] at hb
    rw [← hb]
  · intro b hb
    simp [BootstrapNode.start, hb]
  · intro b hb
    simp [BootstrapNode.start, hb]
  · intro b b' hb
    by_cases hs : b.started
    · simp [BootstrapNode.start, hs] at hb
    · simp [BootstrapNode.start, hs] at hb
      rw [← hb]
  · intro b
    rfl

/-- Witness for C10: the fresh node starts once with a `nil` result, a
second `Start` panics, and `Close` before `Start` returns `nil` without
touching the node. -/
theorem bootstrapNode_lifecycle_witness :
    BootstrapNode.start ⟨false, false⟩ = .ok ⟨true, true⟩ ∧
    BootstrapNode.start ⟨true, true⟩ = .panicked ∧
    BootstrapNode.close ⟨false, false⟩ = (⟨false, false⟩, none) :=
  ⟨bootstrapNode_lifecycle.2.1 ⟨false, false⟩ rfl,
   bootstrapNode_lifecycle.2.2.1 ⟨true, true⟩ rfl,
   bootstrapNode_lifecycle.2.2.2.2 ⟨false, false⟩⟩
